import Mathlib

/-!
Verification development for the example script `examples/main.py` of the
promi repository.  The script prints a header line, samples the clock,
reads an XES event log through an external library, samples the clock
again, writes the log back out through the library, samples the clock a
third time, and prints the two elapsed durations.

The embedding below translates the script statement by statement.  The
two external library calls and the clock are opaque: an `Env` supplies
their outcomes.  A run yields the ordered trace of observable events
(console prints, clock samples, and the two library calls with their
arguments) together with the script's final outcome, where an
`Except.error` models an exception propagating out of the module body
unhandled.
-/

namespace Promi

/-- Hard-coded input path of the script (`in_path` in the source). -/
def in_path : String := "../static/xes/book/bigger-example.xes"

/-- Hard-coded output path of the script (`out_path` in the source). -/
def out_path : String := "/tmp/out.xes"

/-- The header line the script prints first: input path, arrow, output path. -/
def headerLine : String := in_path ++ " --> " ++ out_path

/-- Observable events of a run: a console print of a line, a clock sample
taken by a call to `time()`, the library call reading from a path, and
the library call writing a log object to a path.  The log type is
opaque. -/
inductive Event (Log : Type) : Type where
  | print (s : String)
  | timeSample (t : ℚ)
  | importCall (path : String)
  | exportCall (log : Log) (path : String)
  deriving DecidableEq

/-- The kind of an event, forgetting its data. -/
inductive Kind : Type where
  | printK
  | timeK
  | importK
  | exportK
  deriving DecidableEq

/-- Forget the data carried by an event, keeping only its kind. -/
def shape {Log : Type} : Event Log → Kind
  | Event.print _ => Kind.printK
  | Event.timeSample _ => Kind.timeK
  | Event.importCall _ => Kind.importK
  | Event.exportCall _ _ => Kind.exportK

/-- The environment a run executes in: the command-line arguments and
environment variables the process was started with (the script never
reads either), the clock values returned by successive `time()` calls,
and the outcomes of the two external library calls.  `importResult`
gives, for a path, either the loaded log object or the exception raised;
`exportResult` gives, for a log object and a path, either success or the
exception raised. -/
structure Env (Log ε : Type) where
  argv : List String
  envVars : String → Option String
  clock : Nat → ℚ
  importResult : String → Except ε Log
  exportResult : Log → String → Except ε Unit

/-- The decimal digit character for `n % 10`. -/
def digitChar (n : Nat) : Char := Char.ofNat (48 + n % 10)

/-- The three-digit, zero-padded decimal rendering of `n % 1000`. -/
def pad3 (n : Nat) : String :=
  String.mk [digitChar (n / 100), digitChar (n / 10), digitChar n]

/-- The integer nearest to the rational `q`, rounding halves up:
`⌊q + 1/2⌋`, computed directly on the numerator and denominator. -/
def roundQ (q : ℚ) : Int := Int.fdiv (2 * q.num + q.den) (2 * q.den)

/-- The part before the decimal point of the three-decimal rendering of
`q`: an optional minus sign followed by the integer part of the value
rounded to the nearest thousandth. -/
def intPart (q : ℚ) : String :=
  (if roundQ (q * 1000) < 0 then "-" else "") ++
    toString ((roundQ (q * 1000)).natAbs / 1000)

/-- The three digits after the decimal point of the three-decimal
rendering of `q`. -/
def fracPart (q : ℚ) : String := pad3 ((roundQ (q * 1000)).natAbs % 1000)

/-- Fixed-point formatting of a duration with exactly three digits after
the decimal point, modelling the `.3f` format specifier used by the
script's timing line: the value is rounded to the nearest thousandth and
rendered as integer part, point, three fractional digits. -/
def fmt3 (q : ℚ) : String := intPart q ++ "." ++ fracPart q

/-- The run of the script body in environment `env`, translated
statement by statement from the source:

* `print(f'... --> ...')` emits the header line;
* `t_s = time()` samples the clock;
* `log = xes_import_factory.apply(in_path)` performs the library call to
  read the log; if it raises, the exception propagates and the run ends;
* `t_m = time()` samples the clock;
* `xes_exporter.export_log(log, out_path)` performs the library call to
  write the log; if it raises, the exception propagates and the run ends;
* `t_e = time()` samples the clock;
* the final `print` emits the timing line with the two durations.

The result is the trace of events in execution order, paired with
`Except.ok ()` for normal termination or `Except.error e` for an
exception `e` escaping the module body. -/
def run {Log ε : Type} (env : Env Log ε) : List (Event Log) × Except ε Unit :=
  let t_s := env.clock 0
  match env.importResult in_path with
  | Except.error e =>
      ([Event.print headerLine, Event.timeSample t_s, Event.importCall in_path],
       Except.error e)
  | Except.ok log =>
      let t_m := env.clock 1
      match env.exportResult log out_path with
      | Except.error e =>
          ([Event.print headerLine, Event.timeSample t_s, Event.importCall in_path,
            Event.timeSample t_m, Event.exportCall log out_path],
           Except.error e)
      | Except.ok _ =>
          let t_e := env.clock 2
          ([Event.print headerLine, Event.timeSample t_s, Event.importCall in_path,
            Event.timeSample t_m, Event.exportCall log out_path, Event.timeSample t_e,
            Event.print ("read in " ++ fmt3 (t_m - t_s) ++ "s, wrote in " ++
              fmt3 (t_e - t_m) ++ "s")],
           Except.ok ())

/-- Process exit status of a run: 0 on normal termination, 1 when an
exception escapes the module body (the Python interpreter exits with
status 1 on an unhandled exception). -/
def exitStatus {Log ε : Type} (env : Env Log ε) : Nat :=
  match (run env).2 with
  | Except.ok _ => 0
  | Except.error _ => 1

/-- The lines printed to the console during a trace, in order. -/
def printedLines {Log : Type} : List (Event Log) → List String
  | [] => []
  | Event.print s :: rest => s :: printedLines rest
  | Event.timeSample _ :: rest => printedLines rest
  | Event.importCall _ :: rest => printedLines rest
  | Event.exportCall _ _ :: rest => printedLines rest

/-- The paths passed to the library's read call during a trace. -/
def importPaths {Log : Type} : List (Event Log) → List String
  | [] => []
  | Event.importCall p :: rest => p :: importPaths rest
  | Event.print _ :: rest => importPaths rest
  | Event.timeSample _ :: rest => importPaths rest
  | Event.exportCall _ _ :: rest => importPaths rest

/-- The paths passed to the library's write call during a trace. -/
def exportPaths {Log : Type} : List (Event Log) → List String
  | [] => []
  | Event.exportCall _ p :: rest => p :: exportPaths rest
  | Event.print _ :: rest => exportPaths rest
  | Event.timeSample _ :: rest => exportPaths rest
  | Event.importCall _ :: rest => exportPaths rest

/-- The log objects passed to the library's write call during a trace. -/
def exportedLogs {Log : Type} : List (Event Log) → List Log
  | [] => []
  | Event.exportCall l _ :: rest => l :: exportedLogs rest
  | Event.print _ :: rest => exportedLogs rest
  | Event.timeSample _ :: rest => exportedLogs rest
  | Event.importCall _ :: rest => exportedLogs rest

/-- Whether an event is a clock sample. -/
def isTimeSample {Log : Type} : Event Log → Bool
  | Event.timeSample _ => true
  | Event.print _ => false
  | Event.importCall _ => false
  | Event.exportCall _ _ => false

/-- An event is allowed when it is a console print, a clock sample, a
read from the hard-coded input path, or a write to the hard-coded output
path. -/
def allowedEvent {Log : Type} : Event Log → Bool
  | Event.print _ => true
  | Event.timeSample _ => true
  | Event.importCall p => p == in_path
  | Event.exportCall _ p => p == out_path

/-- The fixed sequence of event kinds of a complete successful run:
header print, clock sample, read call, clock sample, write call, clock
sample, timing print. -/
def scriptShapes : List Kind :=
  [Kind.printK, Kind.timeK, Kind.importK, Kind.timeK,
   Kind.exportK, Kind.timeK, Kind.printK]

/-- A concrete environment in which both library calls succeed and the
clock returns 0, 1, 2 on its three samples. -/
def okEnv : Env Unit String where
  argv := []
  envVars := fun _ => none
  clock := fun i => (i : ℚ)
  importResult := fun _ => Except.ok ()
  exportResult := fun _ _ => Except.ok ()

/-- A concrete environment in which the read call raises. -/
def importFailEnv : Env Unit String where
  argv := []
  envVars := fun _ => none
  clock := fun i => (i : ℚ)
  importResult := fun _ => Except.error "no such file"
  exportResult := fun _ _ => Except.ok ()

/-- A concrete environment in which the read call succeeds and the write
call raises. -/
def exportFailEnv : Env Unit String where
  argv := []
  envVars := fun _ => none
  clock := fun i => (i : ℚ)
  importResult := fun _ => Except.ok ()
  exportResult := fun _ _ => Except.error "disk full"

/-- `roundQ` agrees with rounding half up in the ordered-field sense. -/
theorem roundQ_eq_floor_add_half (q : ℚ) : roundQ q = ⌊q + 1 / 2⌋ := by
  have hden : (0 : ℤ) < 2 * (q.den : ℤ) := by positivity
  have hq : q + 1 / 2 = ((2 * q.num + (q.den : ℤ) : ℤ) : ℚ) / ((2 * q.den : ℕ) : ℚ) := by
    have hd : ((q.den : ℚ)) ≠ 0 := by
      exact_mod_cast (Nat.cast_ne_zero (R := ℚ)).2 q.den_nz
    have hnum : (q.num : ℚ) = q * (q.den : ℚ) := by
      field_simp [Rat.num_div_den q]
    push_cast
    field_simp
    ring_nf
    nlinarith [hnum, sq_nonneg ((q.den : ℚ))]
  rw [hq, Rat.floor_intCast_div_natCast, roundQ, Int.fdiv_eq_ediv _ (by positivity)]
  push_cast
  rfl

/-- The fractional part always has exactly three digits. -/
theorem fracPart_length (q : ℚ) : (fracPart q).length = 3 := rfl

/-- `fmt3` always renders as an integer part, a point, and a three-digit
fractional part. -/
theorem fmt3_eq_intPart_fracPart (q : ℚ) :
    fmt3 q = intPart q ++ "." ++ fracPart q := rfl

/-- C1: in every run in which both library calls succeed, the run is the
full seven-event trace; the first printed duration is formatted from
`clock 1 - clock 0`, where `clock 0` is the sample taken immediately
before the read call and `clock 1` the sample taken immediately after
it, and the second printed duration is formatted from
`clock 2 - clock 1`, where `clock 2` is the sample taken immediately
after the write call — each interval covers exactly the corresponding
library call and nothing else. -/
theorem c1_printed_durations {Log ε : Type} (env : Env Log ε) (log : Log)
    (hi : env.importResult in_path = Except.ok log)
    (he : env.exportResult log out_path = Except.ok ()) :
    run env =
      ([Event.print headerLine,
        Event.timeSample (env.clock 0),
        Event.importCall in_path,
        Event.timeSample (env.clock 1),
        Event.exportCall log out_path,
        Event.timeSample (env.clock 2),
        Event.print ("read in " ++ fmt3 (env.clock 1 - env.clock 0) ++
          "s, wrote in " ++ fmt3 (env.clock 2 - env.clock 1) ++ "s")],
       Except.ok ()) := by
  simp [run, hi, he]

/-- Witness for C1 at the concrete successful environment: both
durations are one second and print as `1.000`. -/
theorem c1_witness :
    run okEnv =
      ([Event.print headerLine,
        Event.timeSample 0,
        Event.importCall in_path,
        Event.timeSample 1,
        Event.exportCall () out_path,
        Event.timeSample 2,
        Event.print "read in 1.000s, wrote in 1.000s"],
       Except.ok ()) := by
  have h := c1_printed_durations okEnv () rfl rfl
  rw [h]
  norm_num [okEnv, fmt3, intPart, fracPart, roundQ]
  decide

/-- C2 counterexample: in the concrete successful run the script takes
three clock samples, not two, and one clock sample occurs before the
read call (the trace starts with the header print, a clock sample, and
then the read call). -/
theorem c2_counterexample :
    (run okEnv).1.countP isTimeSample ≠ 2 ∧
    ((run okEnv).1.map shape).take 3 = [Kind.printK, Kind.timeK, Kind.importK] := by
  decide

/-- C2 (amended): the script's body is a linear sequence of five
operations, in the order timestamp, import, timestamp, export,
timestamp — one timestamp is taken before the import and three
timestamps are taken in total. -/
theorem c2_operation_sequence {Log ε : Type} (env : Env Log ε) (log : Log)
    (hi : env.importResult in_path = Except.ok log)
    (he : env.exportResult log out_path = Except.ok ()) :
    (run env).1.map shape = scriptShapes ∧
    (run env).1.countP isTimeSample = 3 := by
  simp [run, hi, he, shape, scriptShapes, isTimeSample]

/-- Witness for the amended C2 at the concrete successful environment. -/
theorem c2_witness :
    (run okEnv).1.map shape = scriptShapes ∧
    (run okEnv).1.countP isTimeSample = 3 :=
  c2_operation_sequence okEnv () rfl rfl

/-- C3: whenever the read call returns a log object, that very object —
and nothing else — is what the script passes to the write call, and the
run's outcome is exactly the outcome of the write call on that object:
the log flows from the read call to the write call untouched. -/
theorem c3_log_passthrough {Log ε : Type} (env : Env Log ε) (log : Log)
    (hi : env.importResult in_path = Except.ok log) :
    exportedLogs (run env).1 = [log] ∧
    (run env).2 = env.exportResult log out_path := by
  cases he : env.exportResult log out_path with
  | error e => simp [run, hi, he, exportedLogs]
  | ok u => cases u; simp [run, hi, he, exportedLogs]

/-- Witness for C3 at the concrete successful environment. -/
theorem c3_witness :
    exportedLogs (run okEnv).1 = [()] ∧
    (run okEnv).2 = okEnv.exportResult () out_path :=
  c3_log_passthrough okEnv () rfl

/-- C4: any exception raised by the read call or by the write call
escapes the run unchanged as its final outcome, and the script prints
nothing after the header — no handler, no recovery, no translated
user-facing error message. -/
theorem c4_error_propagation {Log ε : Type} (env : Env Log ε) (e : ε) :
    (env.importResult in_path = Except.error e →
      (run env).2 = Except.error e ∧ printedLines (run env).1 = [headerLine]) ∧
    (∀ log, env.importResult in_path = Except.ok log →
      env.exportResult log out_path = Except.error e →
      (run env).2 = Except.error e ∧ printedLines (run env).1 = [headerLine]) := by
  constructor
  · intro hi
    simp [run, hi, printedLines]
  · intro log hi he
    simp [run, hi, he, printedLines]

/-- Witness for C4 at the concrete failing environments: the read
failure and the write failure each propagate verbatim. -/
theorem c4_witness :
    ((run importFailEnv).2 = Except.error "no such file" ∧
      printedLines (run importFailEnv).1 = [headerLine]) ∧
    ((run exportFailEnv).2 = Except.error "disk full" ∧
      printedLines (run exportFailEnv).1 = [headerLine]) :=
  ⟨(c4_error_propagation importFailEnv "no such file").1 rfl,
   (c4_error_propagation exportFailEnv "disk full").2 () rfl rfl⟩

/-- C5: when both library calls return without raising, the run
terminates normally with exit status zero, and the last event of the run
is the print of the timing line. -/
theorem c5_exit_zero {Log ε : Type} (env : Env Log ε) (log : Log)
    (hi : env.importResult in_path = Except.ok log)
    (he : env.exportResult log out_path = Except.ok ()) :
    exitStatus env = 0 ∧
    (run env).1.getLast? = some (Event.print ("read in " ++
      fmt3 (env.clock 1 - env.clock 0) ++ "s, wrote in " ++
      fmt3 (env.clock 2 - env.clock 1) ++ "s")) := by
  simp [exitStatus, run, hi, he]

/-- Witness for C5 at the concrete successful environment. -/
theorem c5_witness :
    exitStatus okEnv = 0 ∧
    (run okEnv).1.getLast? = some (Event.print ("read in " ++
      fmt3 (okEnv.clock 1 - okEnv.clock 0) ++ "s, wrote in " ++
      fmt3 (okEnv.clock 2 - okEnv.clock 1) ++ "s")) :=
  c5_exit_zero okEnv () rfl rfl

/-- C6: in every run, the read call uses exactly the hard-coded input
path and any write call uses exactly the hard-coded output path; every
event of the trace is a console print, a clock sample, or one of those
two calls; and the run is unchanged under arbitrary replacement of the
command-line arguments and the environment variables. -/
theorem c6_fixed_boundary {Log ε : Type} (env : Env Log ε)
    (a : List String) (v : String → Option String) :
    importPaths (run env).1 = [in_path] ∧
    (run env).1.all allowedEvent = true ∧
    (exportPaths (run env).1 = [] ∨ exportPaths (run env).1 = [out_path]) ∧
    run { env with argv := a, envVars := v } = run env := by
  cases hi : env.importResult in_path with
  | error e =>
      simp [run, hi, importPaths, exportPaths, allowedEvent]
  | ok log =>
      cases he : env.exportResult log out_path with
      | error e2 =>
          simp [run, hi, he, importPaths, exportPaths, allowedEvent]
      | ok u =>
          cases u
          simp [run, hi, he, importPaths, exportPaths, allowedEvent]

/-- C7: the control flow is straight-line: the shape of every run's
trace is a prefix of the one fixed sequence of operations, so every run
executes the same statements in the same order up to the point where an
exception, if any, is raised. -/
theorem c7_straight_line {Log ε : Type} (env : Env Log ε) :
    ((run env).1.map shape) <+: scriptShapes := by
  cases hi : env.importResult in_path with
  | error e =>
      refine ⟨[Kind.timeK, Kind.exportK, Kind.timeK, Kind.printK], ?_⟩
      simp [run, hi, shape, scriptShapes]
  | ok log =>
      cases he : env.exportResult log out_path with
      | error e2 =>
          refine ⟨[Kind.timeK, Kind.printK], ?_⟩
          simp [run, hi, he, shape, scriptShapes]
      | ok u =>
          cases u
          refine ⟨[], ?_⟩
          simp [run, hi, he, shape, scriptShapes]

/-- C8: when the read call raises, the run stops at once: the trace is
exactly the header print, the first clock sample, and the failed read
call — no write call is ever made and nothing is printed beyond the
header line. -/
theorem c8_import_failure_stops {Log ε : Type} (env : Env Log ε) (e : ε)
    (hi : env.importResult in_path = Except.error e) :
    run env = ([Event.print headerLine, Event.timeSample (env.clock 0),
                Event.importCall in_path], Except.error e) ∧
    exportPaths (run env).1 = [] ∧
    printedLines (run env).1 = [headerLine] := by
  simp [run, hi, exportPaths, printedLines]

/-- Witness for C8 at the concrete environment whose read call raises. -/
theorem c8_witness :
    run importFailEnv = ([Event.print headerLine,
      Event.timeSample (importFailEnv.clock 0),
      Event.importCall in_path], Except.error "no such file") ∧
    exportPaths (run importFailEnv).1 = [] ∧
    printedLines (run importFailEnv).1 = [headerLine] :=
  c8_import_failure_stops importFailEnv "no such file" rfl

/-- C9: every run starts by printing the header line — input path,
arrow, output path — before the read call begins (the first three events
are always the header print, a clock sample, and the read call), and a
successful run prints exactly two lines: the header line, then the
timing line. -/
theorem c9_header_first {Log ε : Type} (env : Env Log ε) :
    (run env).1.head? = some (Event.print headerLine) ∧
    ((run env).1.map shape).take 3 = [Kind.printK, Kind.timeK, Kind.importK] ∧
    (∀ log, env.importResult in_path = Except.ok log →
      env.exportResult log out_path = Except.ok () →
      printedLines (run env).1 =
        [headerLine,
         "read in " ++ fmt3 (env.clock 1 - env.clock 0) ++ "s, wrote in " ++
           fmt3 (env.clock 2 - env.clock 1) ++ "s"]) := by
  refine ⟨?_, ?_, ?_⟩
  · cases hi : env.importResult in_path with
    | error e => simp [run, hi]
    | ok log =>
        cases he : env.exportResult log out_path with
        | error e2 => simp [run, hi, he]
        | ok u => cases u; simp [run, hi, he]
  · cases hi : env.importResult in_path with
    | error e => simp [run, hi, shape]
    | ok log =>
        cases he : env.exportResult log out_path with
        | error e2 => simp [run, hi, he, shape]
        | ok u => cases u; simp [run, hi, he, shape]
  · intro log hi he
    simp [run, hi, he, printedLines]

/-- Witness for C9 at the concrete successful environment: header line
first, then exactly the timing line. -/
theorem c9_witness :
    (run okEnv).1.head? = some (Event.print headerLine) ∧
    printedLines (run okEnv).1 =
      [headerLine,
       "read in " ++ fmt3 (okEnv.clock 1 - okEnv.clock 0) ++ "s, wrote in " ++
         fmt3 (okEnv.clock 2 - okEnv.clock 1) ++ "s"] :=
  ⟨(c9_header_first okEnv).1, (c9_header_first okEnv).2.2 () rfl rfl⟩

/-- C10: the timing line printed on success follows the fixed template —
`read in `, first duration, `s, wrote in `, second duration, `s` — where
each duration is rendered with an integer part, a decimal point, and
exactly three digits after the decimal point; the first duration is the
difference of the second and first clock samples and the second duration
is the difference of the third and second clock samples. -/
theorem c10_timing_format {Log ε : Type} (env : Env Log ε) (log : Log)
    (hi : env.importResult in_path = Except.ok log)
    (he : env.exportResult log out_path = Except.ok ()) :
    (run env).1.getLast? = some (Event.print
      ("read in " ++ (intPart (env.clock 1 - env.clock 0) ++ "." ++
          fracPart (env.clock 1 - env.clock 0)) ++
        "s, wrote in " ++ (intPart (env.clock 2 - env.clock 1) ++ "." ++
          fracPart (env.clock 2 - env.clock 1)) ++ "s")) ∧
    (fracPart (env.clock 1 - env.clock 0)).length = 3 ∧
    (fracPart (env.clock 2 - env.clock 1)).length = 3 := by
  refine ⟨?_, fracPart_length _, fracPart_length _⟩
  simp [run, hi, he, fmt3]

/-- Witness for C10 at the concrete successful environment. -/
theorem c10_witness :
    (run okEnv).1.getLast? = some (Event.print
      ("read in " ++ (intPart (okEnv.clock 1 - okEnv.clock 0) ++ "." ++
          fracPart (okEnv.clock 1 - okEnv.clock 0)) ++
        "s, wrote in " ++ (intPart (okEnv.clock 2 - okEnv.clock 1) ++ "." ++
          fracPart (okEnv.clock 2 - okEnv.clock 1)) ++ "s")) ∧
    (fracPart (okEnv.clock 1 - okEnv.clock 0)).length = 3 ∧
    (fracPart (okEnv.clock 2 - okEnv.clock 1)).length = 3 :=
  c10_timing_format okEnv () rfl rfl

end Promi
